import Mathlib

/-!
Verification of the core calculation engine of the supply-chain scenario
cost calculator (`src/app.py`): record loading/validation, tariff tables,
the landed-cost model, the alternative-supplier recommendation scan, and
the aggregate views.

Numeric values are modelled with `ℚ` (exact arithmetic).  A raw cell that
pandas' `to_numeric(..., errors="coerce")` would turn into `NaN`
(non-numeric or empty input) is modelled as `none`; a cell that parses is
`some q`.  A missing `supplier_country` cell is likewise `none`.
-/

namespace ScenarioCopilot

/-- A raw input row, after parsing of the numeric cells
(`pd.to_numeric(..., errors="coerce")`): `none` stands for a value that
failed numeric coercion (or, for `supplier_country`, a missing cell). -/
structure RawRecord where
  sku : String
  product_name : String
  base_cost : Option ℚ
  supplier_country : Option String
  hs_code : String
  annual_units : Option ℚ
  deriving DecidableEq, Repr

/-- A cleaned row after the "Basic cleaning" block (`app.py` lines 38-40). -/
structure Record where
  sku : String
  product_name : String
  base_cost : ℚ
  supplier_country : String
  hs_code : String
  annual_units : ℤ
  deriving DecidableEq, Repr

/-- Truncation toward zero, the behaviour of pandas `.astype(int)` on a
float column (`app.py` line 39). -/
def truncQ (q : ℚ) : ℤ :=
  if 0 ≤ q then ⌊q⌋ else ⌈q⌉

/-- The cleaning block (`app.py` lines 38-40):
`base_cost` coerced with `fillna(0.0)`, `annual_units` coerced with
`fillna(0).astype(int)`, `supplier_country` filled with `"Unknown"`. -/
def cleanRecord (r : RawRecord) : Record :=
  { sku := r.sku
    product_name := r.product_name
    base_cost := r.base_cost.getD 0
    supplier_country := r.supplier_country.getD "Unknown"
    hs_code := r.hs_code
    annual_units := truncQ (r.annual_units.getD 0) }

/-- ASCII lowercasing of one character, modelling Python's `str.lower`
on the ASCII column headers. -/
def lowerChar (c : Char) : Char :=
  if 65 ≤ c.toNat ∧ c.toNat ≤ 90 then Char.ofNat (c.toNat + 32) else c

/-- `c.lower()` applied to a column header. -/
def lowerStr (s : String) : String :=
  String.mk (s.data.map lowerChar)

/-- The required-column set (`app.py` line 30). -/
def requiredCols : List String :=
  ["sku", "product_name", "base_cost", "supplier_country", "hs_code", "annual_units"]

/-- `required - set([c.lower() for c in df.columns])` (`app.py` line 31). -/
def missingCols (cols : List String) : List String :=
  requiredCols.filter (fun c => ¬ (cols.map lowerStr).contains c)

/-- The terminal schema failure (`app.py` lines 33-35): the error message
names the missing columns and `st.stop()` halts the pipeline. -/
structure SchemaError where
  missing : List String
  deriving DecidableEq, Repr

/-- Loading: the schema check (`app.py` lines 30-35) followed by the
cleaning block (lines 38-40).  On a schema failure nothing further is
computed. -/
def loadRecords (cols : List String) (raws : List RawRecord) :
    Except SchemaError (List Record) :=
  if missingCols cols = [] then
    .ok (raws.map cleanRecord)
  else
    .error ⟨missingCols cols⟩

/-- The built-in default tariff table (`app.py` lines 46-57). -/
def builtinTariffs : List (String × ℚ) :=
  [("China", 20/100), ("Vietnam", 8/100), ("India", 10/100), ("Mexico", 5/100),
   ("USA", 0), ("Thailand", 6/100), ("Malaysia", 5/100), ("Indonesia", 7/100),
   ("Taiwan", 4/100), ("Unknown", 0)]

/-- The fallback rate used by `dict.get(..., 0.05)` and `setdefault(c, 0.05)`. -/
def fallbackRate : ℚ := 5/100

/-- Insertion of a string into a sorted list (ascending). -/
def insertSorted (a : String) : List String → List String
  | [] => [a]
  | b :: t => if a ≤ b then a :: b :: t else b :: insertSorted a t

/-- Insertion sort on strings, modelling Python's `sorted` on the
deduplicated lists the code sorts. -/
def sortStrings (l : List String) : List String :=
  l.foldr insertSorted []

/-- `sorted(df["supplier_country"].unique())` (`app.py` line 60). -/
def dataCountries (recs : List Record) : List String :=
  sortStrings (recs.map (·.supplier_country)).dedup

/-- The `setdefault` loop (`app.py` lines 60-61): every country appearing
in the data that is absent from the built-in table is appended with the
fallback rate `0.05`. -/
def defaultTariffs (recs : List Record) : List (String × ℚ) :=
  builtinTariffs ++
    ((dataCountries recs).filter
      (fun c => (builtinTariffs.lookup c).isNone)).map (fun c => (c, fallbackRate))

/-- `country_map.get(country, 0.05)` (`app.py` lines 73 and 90). -/
def lookupRate (m : List (String × ℚ)) (c : String) : ℚ :=
  (m.lookup c).getD fallbackRate

/-- The cost model (`app.py` lines 72-74):
`landed_cost = base_cost * (1 + t) * fx` with `t` resolved from the map
with fallback `0.05`. -/
def landed_cost (countryMap : List (String × ℚ)) (fx : ℚ) (r : Record) : ℚ :=
  r.base_cost * (1 + lookupRate countryMap r.supplier_country) * fx

/-- The extra hard-coded candidate list appearing inline on `app.py`
line 84. -/
def hardcodedCandidates : List String :=
  ["China", "Vietnam", "India", "Mexico", "Thailand", "Malaysia",
   "Indonesia", "Taiwan", "USA"]

/-- `sorted(set(list(default_tariffs.keys()) + [...]))` (`app.py` line 84).
Note `default_tariffs` has already been extended by the `setdefault` loop
at this point, so data-discovered countries are candidates too. -/
def candidateCountries (defT : List (String × ℚ)) : List String :=
  sortStrings ((defT.map Prod.fst) ++ hardcodedCandidates).dedup

/-- One step of the scan in `best_alternative` (`app.py` lines 89-93): a
candidate replaces the incumbent only on a strictly lower landed cost. -/
def bestStep (rates : List (String × ℚ)) (fx : ℚ) (bc : ℚ)
    (best : String × ℚ) (c : String) : String × ℚ :=
  if bc * (1 + lookupRate rates c) * fx < best.2
  then (c, bc * (1 + lookupRate rates c) * fx)
  else best

/-- `best_alternative` (`app.py` lines 85-95): the scan is seeded with the
current country and its scenario landed cost. -/
def best_alternative (rates : List (String × ℚ)) (fx : ℚ)
    (cands : List String) (r : Record) (scenCost : ℚ) : String × ℚ :=
  cands.foldl (bestStep rates fx r.base_cost) (r.supplier_country, scenCost)

/-- A fully enriched record: all derived columns of `app.py` lines 76-98. -/
structure Enriched where
  sku : String
  product_name : String
  base_cost : ℚ
  supplier_country : String
  hs_code : String
  annual_units : ℤ
  baseline_tariff : Option ℚ
  baseline_landed_cost : ℚ
  scenario_landed_cost : ℚ
  annual_cost_baseline : ℚ
  annual_cost_scenario : ℚ
  annual_delta : ℚ
  alt_country : String
  alt_landed_cost : ℚ
  savings_per_unit_if_switch : ℚ
  annual_savings_if_switch : ℚ
  deriving DecidableEq, Repr

/-- The per-record derived-column computation (`app.py` lines 76-98). -/
def enrich (defT rates : List (String × ℚ)) (fx : ℚ)
    (cands : List String) (r : Record) : Enriched :=
  let blc := landed_cost defT 1 r
  let slc := landed_cost rates fx r
  let acb := blc * (r.annual_units : ℚ)
  let acs := slc * (r.annual_units : ℚ)
  let best := best_alternative rates fx cands r slc
  let savings := max 0 (slc - best.2)
  { sku := r.sku
    product_name := r.product_name
    base_cost := r.base_cost
    supplier_country := r.supplier_country
    hs_code := r.hs_code
    annual_units := r.annual_units
    baseline_tariff := defT.lookup r.supplier_country
    baseline_landed_cost := blc
    scenario_landed_cost := slc
    annual_cost_baseline := acb
    annual_cost_scenario := acs
    annual_delta := acs - acb
    alt_country := best.1
    alt_landed_cost := best.2
    savings_per_unit_if_switch := savings
    annual_savings_if_switch := savings * (r.annual_units : ℚ) }

/-- The scalar KPI row (`app.py` lines 100-106). -/
structure KPIs where
  skuCount : ℕ
  annualBaseline : ℚ
  annualScenario : ℚ
  deltaTotal : ℚ
  deltaPct : ℚ
  deriving DecidableEq, Repr

/-- KPI metrics (`app.py` lines 102-106); the percentage is guarded by the
Python truthiness test `if df[...].sum() else 0`. -/
def computeKPIs (rows : List Enriched) : KPIs :=
  let b := (rows.map (·.annual_cost_baseline)).sum
  let s := (rows.map (·.annual_cost_scenario)).sum
  let d := s - b
  { skuCount := rows.length
    annualBaseline := b
    annualScenario := s
    deltaTotal := d
    deltaPct := if b = 0 then 0 else d / b * 100 }

/-- Descending insertion by a rational key, modelling
`sort_values(..., ascending=False)`. -/
def insertDesc (key : Enriched → ℚ) (a : Enriched) :
    List Enriched → List Enriched
  | [] => [a]
  | b :: t => if key b < key a then a :: b :: t else b :: insertDesc key a t

/-- Descending sort by a rational key. -/
def sortDesc (key : Enriched → ℚ) (rows : List Enriched) : List Enriched :=
  rows.foldr (insertDesc key) []

/-- Top 15 by `annual_delta`, descending (`app.py` line 109). -/
def topIncreases (rows : List Enriched) : List Enriched :=
  (sortDesc (·.annual_delta) rows).take 15

/-- Descending insertion for (country, spend) pairs. -/
def insertDescQ (a : String × ℚ) : List (String × ℚ) → List (String × ℚ)
  | [] => [a]
  | b :: t => if b.2 < a.2 then a :: b :: t else b :: insertDescQ a t

/-- Group-by-country sums of `annual_cost_scenario`, descending
(`app.py` line 114). -/
def countryShare (rows : List Enriched) : List (String × ℚ) :=
  (((rows.map (·.supplier_country)).dedup).map (fun c =>
    (c, ((rows.filter (fun r => r.supplier_country = c)).map
      (·.annual_cost_scenario)).sum))).foldr insertDescQ []

/-- Recommendations slice: strictly positive annual savings, descending,
top 15 (`app.py` line 119). -/
def topSavings (rows : List Enriched) : List Enriched :=
  (sortDesc (·.annual_savings_if_switch)
    (rows.filter (fun r => 0 < r.annual_savings_if_switch))).take 15

/-- All outputs consumed by the presentation layer. -/
structure Output where
  rows : List Enriched
  kpis : KPIs
  increases : List Enriched
  share : List (String × ℚ)
  savings : List Enriched
  deriving DecidableEq, Repr

/-- The enrichment plus aggregation stage, given cleaned records, the
user's scenario rate map and the FX multiplier. -/
def buildOutput (recs : List Record) (rates : List (String × ℚ)) (fx : ℚ) :
    Output :=
  let defT := defaultTariffs recs
  let cands := candidateCountries defT
  let rows := recs.map (enrich defT rates fx cands)
  { rows := rows
    kpis := computeKPIs rows
    increases := topIncreases rows
    share := countryShare rows
    savings := topSavings rows }

/-- The full pipeline: schema check, cleaning, tariff-table construction,
cost model, recommendation scan, aggregation. -/
def pipeline (cols : List String) (raws : List RawRecord)
    (rates : List (String × ℚ)) (fx : ℚ) : Except SchemaError Output :=
  match loadRecords cols raws with
  | .error e => .error e
  | .ok recs => .ok (buildOutput recs rates fx)

/-! ## Helper lemmas about the recommendation scan -/

/-- The running best cost of the scan never increases. -/
theorem foldl_bestStep_le (rates : List (String × ℚ)) (fx bc : ℚ)
    (l : List String) : ∀ acc : String × ℚ,
    (l.foldl (bestStep rates fx bc) acc).2 ≤ acc.2 := by
  induction l with
  | nil => intro acc; exact le_refl _
  | cons c t ih =>
    intro acc
    have h2 : (bestStep rates fx bc acc c).2 ≤ acc.2 := by
      unfold bestStep
      split
    /- strict improvement case -/
      · exact le_of_lt (by assumption)
      · exact le_refl _
    exact le_trans (ih (bestStep rates fx bc acc c)) h2

/-- The scan's resulting country is the seed or one of the scanned
candidates. -/
theorem foldl_bestStep_mem (rates : List (String × ℚ)) (fx bc : ℚ)
    (l : List String) : ∀ acc : String × ℚ,
    (l.foldl (bestStep rates fx bc) acc).1 = acc.1
      ∨ (l.foldl (bestStep rates fx bc) acc).1 ∈ l := by
  induction l with
  | nil => intro acc; exact Or.inl rfl
  | cons c t ih =>
    intro acc
    rcases ih (bestStep rates fx bc acc c) with h | h
    · rw [List.foldl_cons]
      by_cases hc : bc * (1 + lookupRate rates c) * fx < acc.2
      · right
        rw [h]
        unfold bestStep
        rw [if_pos hc]
        exact List.mem_cons_self _ _
      · left
        rw [h]
        unfold bestStep
        rw [if_neg hc]
    · right
      rw [List.foldl_cons]
      exact List.mem_cons_of_mem _ h

/-- If no candidate is strictly cheaper than the seed, the scan returns
the seed unchanged. -/
theorem foldl_bestStep_no_improvement (rates : List (String × ℚ)) (fx bc : ℚ)
    (l : List String) : ∀ acc : String × ℚ,
    (∀ c ∈ l, ¬ bc * (1 + lookupRate rates c) * fx < acc.2) →
    l.foldl (bestStep rates fx bc) acc = acc := by
  induction l with
  | nil => intro acc _; rfl
  | cons c t ih =>
    intro acc h
    have hc : bestStep rates fx bc acc c = acc := by
      unfold bestStep
      rw [if_neg (h c (List.mem_cons_self _ _))]
    rw [List.foldl_cons, hc]
    exact ih acc (fun d hd => h d (List.mem_cons_of_mem _ hd))

/-! ## Helper lemmas about the string sort and lookups -/

theorem mem_insertSorted (a b : String) (l : List String) :
    b ∈ insertSorted a l ↔ b = a ∨ b ∈ l := by
  induction l with
  | nil => simp [insertSorted]
  | cons c t ih =>
    unfold insertSorted
    split
    · simp [or_comm, or_assoc, or_left_comm]
    · simp [ih]
      tauto

theorem mem_sortStrings (a : String) (l : List String) :
    a ∈ sortStrings l ↔ a ∈ l := by
  induction l with
  | nil => simp [sortStrings]
  | cons c t ih =>
    show a ∈ insertSorted c (sortStrings t) ↔ _
    rw [mem_insertSorted]
    simp [ih]

theorem mem_of_lookup_isSome (m : List (String × ℚ)) (c : String)
    (h : (m.lookup c).isSome) : c ∈ m.map Prod.fst := by
  induction m with
  | nil => simp [List.lookup] at h
  | cons p t ih =>
    rw [List.lookup] at h
    by_cases hc : c = p.1
    · simp [hc]
    · right
      apply ih
      simpa [beq_false_of_ne hc] using h

/-! ## Concrete fixtures used by witnesses and counterexamples -/

/-- The complete well-formed header. -/
def okCols : List String :=
  ["sku", "product_name", "base_cost", "supplier_country", "hs_code",
   "annual_units"]

/-- A record sourced from France, a country outside the built-in table. -/
def rawFr : RawRecord :=
  { sku := "SKU-1", product_name := "Widget A", base_cost := some 10,
    supplier_country := some "France", hs_code := "850440",
    annual_units := some 100 }

/-- A record sourced from China. -/
def rawCn : RawRecord :=
  { sku := "SKU-2", product_name := "Widget B", base_cost := some 10,
    supplier_country := some "China", hs_code := "850440",
    annual_units := some 100 }

/-- A record whose `base_cost` and `annual_units` cells parse to negative
numbers. -/
def rawNeg : RawRecord :=
  { sku := "SKU-3", product_name := "Widget C", base_cost := some (-5),
    supplier_country := some "China", hs_code := "850440",
    annual_units := some (-3) }

/-- A reachable scenario rate map (every rate in `[0,1]`, one entry per
key of the default table for the `[rawFr, rawCn]` data): all rates set to
`0.05` except France at `0.01`. -/
def frRates : List (String × ℚ) :=
  [("China", 5/100), ("France", 1/100), ("India", 5/100),
   ("Indonesia", 5/100), ("Malaysia", 5/100), ("Mexico", 5/100),
   ("Taiwan", 5/100), ("Thailand", 5/100), ("USA", 5/100),
   ("Unknown", 5/100), ("Vietnam", 5/100)]

/-! ## Claim theorems -/

/-- Claim C1: for every record, the cost model computes
`scenario_landed_cost = base_cost * (1 + resolved scenario rate) * fx`
(and `baseline_landed_cost` with the baseline map and `fx = 1`),
`annual_cost_scenario = scenario_landed_cost * annual_units`,
`annual_cost_baseline = baseline_landed_cost * annual_units`, and
`annual_delta = annual_cost_scenario - annual_cost_baseline`, where the
resolved rate is `map[country]` if present, else the fallback `0.05`. -/
theorem cost_model_fields (defT rates : List (String × ℚ)) (fx : ℚ)
    (cands : List String) (r : Record) :
    (enrich defT rates fx cands r).scenario_landed_cost
      = r.base_cost * (1 + (rates.lookup r.supplier_country).getD (5/100)) * fx
    ∧ (enrich defT rates fx cands r).baseline_landed_cost
      = r.base_cost * (1 + (defT.lookup r.supplier_country).getD (5/100)) * 1
    ∧ (enrich defT rates fx cands r).annual_cost_scenario
      = (enrich defT rates fx cands r).scenario_landed_cost * (r.annual_units : ℚ)
    ∧ (enrich defT rates fx cands r).annual_cost_baseline
      = (enrich defT rates fx cands r).baseline_landed_cost * (r.annual_units : ℚ)
    ∧ (enrich defT rates fx cands r).annual_delta
      = (enrich defT rates fx cands r).annual_cost_scenario
        - (enrich defT rates fx cands r).annual_cost_baseline :=
  ⟨rfl, rfl, rfl, rfl, rfl⟩

/-- Claim C2: if any required column is absent after lowercase
normalization of the header, the pipeline fails with a `SchemaError`
naming the missing columns and produces nothing else; otherwise it
proceeds and produces the full output. -/
theorem schema_check_halts (cols : List String) (raws : List RawRecord)
    (rates : List (String × ℚ)) (fx : ℚ) :
    (missingCols cols ≠ [] →
      pipeline cols raws rates fx = .error ⟨missingCols cols⟩)
    ∧ (missingCols cols = [] →
      pipeline cols raws rates fx
        = .ok (buildOutput (raws.map cleanRecord) rates fx)) := by
  constructor
  · intro h
    simp [pipeline, loadRecords, h]
  · intro h
    simp [pipeline, loadRecords, h]

/-- Witness for C2: omitting `hs_code` halts with a `SchemaError` naming
exactly `hs_code`; the full header proceeds. -/
theorem schema_check_halts_witness :
    (missingCols ["sku", "product_name", "base_cost", "supplier_country",
        "annual_units"] ≠ []
      ∧ pipeline ["sku", "product_name", "base_cost", "supplier_country",
          "annual_units"] [rawCn] [] 1
        = .error ⟨missingCols ["sku", "product_name", "base_cost",
            "supplier_country", "annual_units"]⟩)
    ∧ (missingCols okCols = []
      ∧ pipeline okCols [rawCn] [] 1
        = .ok (buildOutput ([rawCn].map cleanRecord) [] 1)) :=
  ⟨⟨by decide, (schema_check_halts _ _ _ _).1 (by decide)⟩,
   ⟨by decide, (schema_check_halts _ _ _ _).2 (by decide)⟩⟩

set_option maxRecDepth 10000 in
/-- Claim C3 as stated is false: the counterexample below shows a record
whose `alt_country` is `"France"`, a country that appears only in the
data — it is neither the record's own supplier (`"China"`) nor a member
of the built-in tariff table or of the inline hard-coded list.  The
`setdefault` loop runs before `candidate_countries` is built, so
data-discovered countries become switch destinations. -/
theorem alt_country_from_data_counterexample :
    ((pipeline okCols [rawFr, rawCn] frRates 1).toOption.map
        (fun o => o.rows.map (·.alt_country)))
      = some ["France", "France"]
    ∧ ((pipeline okCols [rawFr, rawCn] frRates 1).toOption.map
        (fun o => o.rows.map (·.supplier_country)))
      = some ["France", "China"]
    ∧ "France" ∉ builtinTariffs.map Prod.fst
    ∧ "France" ∉ hardcodedCandidates
    ∧ "France" ≠ "China" :=
  ⟨by with_unfolding_all decide, by with_unfolding_all decide,
   by decide, by decide, by decide⟩

/-- Claim C3, amended: for every record, `alt_country` is either the
record's current `supplier_country` or a member of the candidate list the
code actually scans — and that list contains every country discovered in
the data (the `setdefault` loop extends `default_tariffs` before the
candidate list is built from its keys), not only the hard-coded ones. -/
theorem alt_country_in_candidates :
    (∀ (defT rates : List (String × ℚ)) (fx : ℚ) (cands : List String)
      (r : Record),
      (enrich defT rates fx cands r).alt_country = r.supplier_country
        ∨ (enrich defT rates fx cands r).alt_country ∈ cands)
    ∧ (∀ (recs : List Record) (c : String),
      c ∈ recs.map (·.supplier_country) →
      c ∈ candidateCountries (defaultTariffs recs)) := by
  constructor
  · intro defT rates fx cands r
    exact foldl_bestStep_mem rates fx r.base_cost cands _
  · intro recs c hc
    have hdata : c ∈ dataCountries recs := by
      rw [dataCountries, mem_sortStrings, List.mem_dedup]
      exact hc
    have hkeys : c ∈ (defaultTariffs recs).map Prod.fst := by
      rw [defaultTariffs, List.map_append, List.mem_append]
      by_cases hb : (builtinTariffs.lookup c).isSome
      · exact Or.inl (mem_of_lookup_isSome _ _ hb)
      · right
        rw [List.map_map, List.mem_map]
        refine ⟨c, ?_, rfl⟩
        rw [List.mem_filter]
        refine ⟨hdata, ?_⟩
        rw [Option.isNone_iff_eq_none]
        exact Option.not_isSome_iff_eq_none.mp hb
    rw [candidateCountries, mem_sortStrings, List.mem_dedup,
      List.mem_append]
    exact Or.inl hkeys

/-- Witness for the amended C3: the data country `"France"` is in the
candidate list built for the `[rawFr]` data, and a concrete enriched
record's `alt_country` is its supplier or a scanned candidate. -/
theorem alt_country_in_candidates_witness :
    ("France" ∈ [cleanRecord rawFr].map (·.supplier_country)
      ∧ "France" ∈ candidateCountries (defaultTariffs [cleanRecord rawFr]))
    ∧ ((enrich (defaultTariffs [cleanRecord rawFr]) frRates 1
          (candidateCountries (defaultTariffs [cleanRecord rawFr]))
          (cleanRecord rawFr)).alt_country
            = (cleanRecord rawFr).supplier_country
        ∨ (enrich (defaultTariffs [cleanRecord rawFr]) frRates 1
          (candidateCountries (defaultTariffs [cleanRecord rawFr]))
          (cleanRecord rawFr)).alt_country
            ∈ candidateCountries (defaultTariffs [cleanRecord rawFr])) :=
  ⟨⟨by decide, alt_country_in_candidates.2 [cleanRecord rawFr] "France"
      (by decide)⟩,
   alt_country_in_candidates.1 _ _ _ _ _⟩

set_option maxRecDepth 10000 in
/-- Claim C4 as stated is false: a `base_cost` cell that parses to `-5`
survives cleaning as the negative value `-5`, and an `annual_units` cell
parsing to `-3` survives as `-3` — the cleaning block coerces invalid
values to `0` but never clamps negative parsed values to be
non-negative. -/
theorem cleaning_negative_counterexample :
    ((loadRecords okCols [rawNeg]).toOption.map
        (fun l => l.map (fun r => (r.base_cost, r.annual_units))))
      = some [((-5 : ℚ), (-3 : ℤ))]
    ∧ (cleanRecord rawNeg).base_cost < 0
    ∧ (cleanRecord rawNeg).annual_units < 0 :=
  ⟨by with_unfolding_all decide, by with_unfolding_all decide,
   by with_unfolding_all decide⟩

/-- Claim C4, amended: after loading and cleaning, every record's
`base_cost` is the parsed numeric value, with non-numeric or empty input
becoming `0.0` (negative parsed values are kept, not clamped);
`annual_units` is the parsed value truncated toward zero, with invalid
input becoming `0` (again possibly negative); an empty
`supplier_country` becomes the literal `"Unknown"`; and no row is
dropped — loading yields exactly one cleaned record per raw row. -/
theorem cleaning_coercion (r : RawRecord) (cols : List String)
    (raws : List RawRecord) (h : missingCols cols = []) :
    (cleanRecord r).base_cost = r.base_cost.getD 0
    ∧ (cleanRecord r).annual_units = truncQ (r.annual_units.getD 0)
    ∧ (cleanRecord r).supplier_country = r.supplier_country.getD "Unknown"
    ∧ loadRecords cols raws = .ok (raws.map cleanRecord)
    ∧ ∀ recs, loadRecords cols raws = .ok recs →
        recs.length = raws.length := by
  refine ⟨rfl, rfl, rfl, ?_, ?_⟩
  · simp [loadRecords, h]
  · intro recs hrecs
    simp only [loadRecords, if_pos h, Except.ok.injEq] at hrecs
    subst hrecs
    simp

/-- Witness for the amended C4: the full header passes the schema check
and loading `[rawNeg]` returns its cleaned image. -/
theorem cleaning_coercion_witness :
    missingCols okCols = []
    ∧ loadRecords okCols [rawNeg] = .ok ([rawNeg].map cleanRecord) :=
  ⟨by decide, (cleaning_coercion rawNeg okCols [rawNeg] (by decide)).2.2.2.1⟩

/-- Claim C5: if the current supplier's scenario landed cost is a
minimum over all candidate countries, `alt_country` equals the current
`supplier_country` — the scan is seeded with the current country's cost
and a candidate replaces it only on a strictly lower cost. -/
theorem tie_break_keeps_current (defT rates : List (String × ℚ)) (fx : ℚ)
    (cands : List String) (r : Record)
    (h : ∀ c ∈ cands,
      (enrich defT rates fx cands r).scenario_landed_cost
        ≤ r.base_cost * (1 + lookupRate rates c) * fx) :
    (enrich defT rates fx cands r).alt_country = r.supplier_country := by
  show (best_alternative rates fx cands r (landed_cost rates fx r)).1
      = r.supplier_country
  rw [best_alternative,
    foldl_bestStep_no_improvement rates fx r.base_cost cands _
      (fun c hc => not_lt.mpr (h c hc))]

/-- Witness for C5: with an empty scenario map every rate resolves to
the fallback `0.05`, all candidate costs tie with the current cost, and
the China record keeps its current supplier. -/
theorem tie_break_keeps_current_witness :
    (∀ c ∈ hardcodedCandidates,
      (enrich builtinTariffs [] 1 hardcodedCandidates
          (cleanRecord rawCn)).scenario_landed_cost
        ≤ (cleanRecord rawCn).base_cost * (1 + lookupRate [] c) * 1)
    ∧ (enrich builtinTariffs [] 1 hardcodedCandidates
        (cleanRecord rawCn)).alt_country
      = (cleanRecord rawCn).supplier_country :=
  ⟨by with_unfolding_all decide,
   tie_break_keeps_current builtinTariffs [] 1 hardcodedCandidates
     (cleanRecord rawCn) (by with_unfolding_all decide)⟩

/-- Claim C6: the recommendation never proposes a worse option —
`alt_landed_cost ≤ scenario_landed_cost` for every record, since the
scan's running best cost starts at the current scenario cost and never
increases. -/
theorem alt_cost_le_scenario (defT rates : List (String × ℚ)) (fx : ℚ)
    (cands : List String) (r : Record) :
    (enrich defT rates fx cands r).alt_landed_cost
      ≤ (enrich defT rates fx cands r).scenario_landed_cost := by
  show (best_alternative rates fx cands r (landed_cost rates fx r)).2
      ≤ landed_cost rates fx r
  exact foldl_bestStep_le rates fx r.base_cost cands _

/-- Claim C7: for every record,
`savings_per_unit_if_switch = max 0 (scenario_landed_cost - alt_landed_cost)`,
hence it is never negative, and
`annual_savings_if_switch = savings_per_unit_if_switch * annual_units`. -/
theorem savings_formula (defT rates : List (String × ℚ)) (fx : ℚ)
    (cands : List String) (r : Record) :
    (enrich defT rates fx cands r).savings_per_unit_if_switch
      = max 0 ((enrich defT rates fx cands r).scenario_landed_cost
          - (enrich defT rates fx cands r).alt_landed_cost)
    ∧ 0 ≤ (enrich defT rates fx cands r).savings_per_unit_if_switch
    ∧ (enrich defT rates fx cands r).annual_savings_if_switch
      = (enrich defT rates fx cands r).savings_per_unit_if_switch
          * (r.annual_units : ℚ) :=
  ⟨rfl, le_max_left 0 _, rfl⟩

/-- Claim C8: the reported percentage change is `0` when the baseline
annual-cost total is `0` (the division is guarded), and on an empty
record set every aggregate view reports zero or empty results. -/
theorem aggregates_guarded (rows : List Enriched) :
    ((rows.map (·.annual_cost_baseline)).sum = 0 →
      (computeKPIs rows).deltaPct = 0)
    ∧ computeKPIs [] = ⟨0, 0, 0, 0, 0⟩
    ∧ topIncreases [] = []
    ∧ countryShare [] = []
    ∧ topSavings [] = [] := by
  refine ⟨?_, by with_unfolding_all decide, rfl, rfl, rfl⟩
  intro h
  simp [computeKPIs, h]

/-- Witness for C8: the empty record set has baseline total `0` and the
reported percentage is `0`. -/
theorem aggregates_guarded_witness :
    (List.map (fun r => r.annual_cost_baseline) ([] : List Enriched)).sum = 0
    ∧ (computeKPIs ([] : List Enriched)).deltaPct = 0 :=
  ⟨rfl, (aggregates_guarded []).1 rfl⟩

/-- Claim C9: the pipeline is deterministic — two runs on identical
inputs (header, records, scenario map, fx) produce identical outputs,
including every derived field and every aggregate view. -/
theorem pipeline_deterministic (colsA colsB : List String)
    (rawsA rawsB : List RawRecord) (ratesA ratesB : List (String × ℚ))
    (fxA fxB : ℚ) (hc : colsA = colsB) (hr : rawsA = rawsB)
    (ht : ratesA = ratesB) (hf : fxA = fxB) :
    pipeline colsA rawsA ratesA fxA = pipeline colsB rawsB ratesB fxB := by
  subst hc
  subst hr
  subst ht
  subst hf
  rfl

/-- Witness for C9: two identical concrete runs agree. -/
theorem pipeline_deterministic_witness :
    pipeline okCols [rawCn] [] 1 = pipeline okCols [rawCn] [] 1 :=
  pipeline_deterministic okCols okCols [rawCn] [rawCn] [] [] 1 1
    rfl rfl rfl rfl

/-- Claim C10: the `max 0 _` clamp in the savings computation is never
active — `savings_per_unit_if_switch` equals exactly
`scenario_landed_cost - alt_landed_cost`, because the scan's best cost is
seeded with the current scenario cost and only ever decreases. -/
theorem savings_clamp_inactive (defT rates : List (String × ℚ)) (fx : ℚ)
    (cands : List String) (r : Record) :
    (enrich defT rates fx cands r).savings_per_unit_if_switch
      = (enrich defT rates fx cands r).scenario_landed_cost
        - (enrich defT rates fx cands r).alt_landed_cost := by
  have h : (best_alternative rates fx cands r (landed_cost rates fx r)).2
      ≤ landed_cost rates fx r :=
    foldl_bestStep_le rates fx r.base_cost cands _
  show max 0 (landed_cost rates fx r
      - (best_alternative rates fx cands r (landed_cost rates fx r)).2)
    = landed_cost rates fx r
      - (best_alternative rates fx cands r (landed_cost rates fx r)).2
  exact max_eq_right (sub_nonneg.mpr h)

end ScenarioCopilot
